import Mathlib

/-!
# Verification of `daily.py`

A shallow embedding of the core logic of the `daily` command-line journal:
date resolution (`Daily.translate_date`, `Daily.get_latest_entry`), the entry
service (`Daily.get_entry`), the two storage backends (`SqliteDriver`,
`FsDriver`), and the relevant parts of `run_subcommands` and module import.

Conventions of the embedding:
* Python strings are Lean `String`s; helper functions `pyLower`, `pyStrip`,
  `pyReadlines` model `str.lower`, `str.strip` and `file.readlines`.
* The host clock (`datetime.date.today() + timedelta(off)` formatted as
  `%Y-%m-%d`) is an external collaborator, modelled by a `Clock` value.
* The storage driver seen by the `Daily` orchestrator is a collaborator with
  a pure `has_entry` / `get_entry` view, modelled by a `Driver` value.
* Fallible Python code (raising exceptions) returns `Except`.
* `SqliteDriver` carries an explicit `closed` flag: `sqlite3` raises
  `ProgrammingError: Cannot operate on a closed database` when a cursor is
  requested from a closed connection, and `add_entry` / `nuke_entries` /
  `remove_entry` / `edit_entry` all call `self._con.close()`.
-/

set_option autoImplicit false

/-! ## Python string primitives -/

/-- Characters removed by Python's `str.strip()` (ASCII whitespace). -/
def pyIsSpace (c : Char) : Bool :=
  c == ' ' || c == '\t' || c == '\n' || c == '\r' || c == '\x0b' || c == '\x0c'

/-- `str.strip()` on the character list: drop whitespace from both ends. -/
def pyStripL (l : List Char) : List Char :=
  ((l.dropWhile pyIsSpace).reverse.dropWhile pyIsSpace).reverse

/-- Models Python `s.strip()`. -/
def pyStrip (s : String) : String :=
  ⟨pyStripL s.data⟩

/-- Models Python `s.lower()` (ASCII letters suffice for this program). -/
def pyLower (s : String) : String :=
  ⟨s.data.map Char.toLower⟩

/-- `file.readlines()` on a character list: split after each newline,
keeping the terminator; a trailing chunk without a newline is kept too. -/
def readlinesL : List Char → List (List Char)
  | [] => []
  | c :: rest =>
    if c = '\n' then ['\n'] :: readlinesL rest
    else
      match readlinesL rest with
      | [] => [[c]]
      | l :: ls => (c :: l) :: ls

/-- Models Python `open(f).readlines()` on file contents `s`. -/
def pyReadlines (s : String) : List String :=
  (readlinesL s.data).map (fun l => ⟨l⟩)

/-! ## Constants and the date regex (daily.py lines 15-21) -/

def DEFAULT_EXTENSION : String := "txt"

def DATE_FORMAT : String := "%Y-%m-%d"

/-- `os.linesep` on the POSIX host the tool targets. -/
def LINESEP : String := "\n"

/-- `daily_entry_regex.match(s)` for the pattern `^\d{4}-\d{2}-\d{2}$`:
exactly four digits, a dash, two digits, a dash, two digits. -/
def daily_entry_regex_match (s : String) : Bool :=
  match s.data with
  | [y1, y2, y3, y4, h1, m1, m2, h2, d1, d2] =>
    y1.isDigit && y2.isDigit && y3.isDigit && y4.isDigit && h1 == '-' &&
      m1.isDigit && m2.isDigit && h2 == '-' && d1.isDigit && d2.isDigit
  | _ => false

/-- The `IllegalDateException` raised by `Daily._validate_date`. -/
structure IllegalDateException where
  msg : String
deriving DecidableEq

/-! ## The orchestrator `Daily` (daily.py lines 35-104) -/

/-- The host calendar collaborator: `today_plus off` models
`(date.today() + timedelta(off)).strftime("%Y-%m-%d")`. -/
structure Clock where
  today_plus : Int → String

/-- The read side of the storage driver as seen by `Daily`. -/
structure Driver where
  has_entry : String → Bool
  get_entry : String → List String

/-- The `Result` dataclass (lines 28-32). -/
structure Result where
  items : List String := []
  warnings : List String := []
  daily_date : String := ""
deriving DecidableEq

/-- `Daily._validate_date` (lines 39-46): empty dates and dates not matching
the regex raise `IllegalDateException`. -/
def Daily.validate_date (daily_date : String) : Except IllegalDateException Unit :=
  if daily_date == "" then
    .error ⟨"empty date given"⟩
  else if !daily_entry_regex_match (pyStrip daily_date) then
    .error ⟨"Invalid date " ++ daily_date ++ ", date must be in format " ++ DATE_FORMAT⟩
  else
    .ok ()

/-- `Daily.compute_date` (lines 48-51). -/
def Daily.compute_date (clock : Clock) (days_offset : Int) : String :=
  clock.today_plus days_offset

/-- The loop body of `Daily.get_latest_entry` (lines 68-73): `fuel` remaining
iterations, `i` the current offset `-i` fed to `compute_date`. -/
def Daily.get_latest_entry_from (clock : Clock) (driver : Driver) :
    Nat → Nat → Option String
  | 0, _ => none
  | fuel + 1, i =>
    let daily_date := Daily.compute_date clock (-(i : Int))
    if driver.has_entry daily_date then some daily_date
    else Daily.get_latest_entry_from clock driver fuel (i + 1)

/-- `Daily.get_latest_entry` (lines 68-73): `for i in range(30)` walking
backward from today, returning the first date that has an entry. -/
def Daily.get_latest_entry (clock : Clock) (driver : Driver) : Option String :=
  Daily.get_latest_entry_from clock driver 30 0

/-- `Daily.translate_date` (lines 53-63). -/
def Daily.translate_date (clock : Clock) (driver : Driver) (special_date : String) :
    Except IllegalDateException (Option String) :=
  let special_date := pyStrip (pyLower special_date)
  if special_date == "today" || special_date == "t" then
    .ok (some (Daily.compute_date clock 0))
  else if special_date == "yesterday" || special_date == "y" then
    .ok (some (Daily.compute_date clock (-1)))
  else if special_date == "last" || special_date == "l" then
    .ok (Daily.get_latest_entry clock driver)
  else
    match Daily.validate_date special_date with
    | .error e => .error e
    | .ok _ => .ok (some special_date)

/-- `Daily.get_entry` (lines 75-89). -/
def Daily.get_entry (clock : Clock) (driver : Driver) (daily_date : String) : Result :=
  if !driver.has_entry daily_date then
    match Daily.get_latest_entry clock driver with
    | none =>
      { items := [], warnings := ["No entries found for the last 30 days"], daily_date := "" }
    | some new_daily_date =>
      { items := driver.get_entry new_daily_date
        warnings :=
          ["Nothing found for " ++ daily_date ++ ", showing results for " ++ new_daily_date]
        daily_date := new_daily_date }
  else
    { items := driver.get_entry daily_date, warnings := [], daily_date := daily_date }

/-! ## The SQLite backend (daily.py lines 107-173) -/

/-- Python exceptions reachable in the modelled paths. -/
inductive PyError where
  | nameError (name : String)
  | programmingError (msg : String)
deriving DecidableEq

/-- `sqlite3.ProgrammingError` raised on any cursor use after `close()`. -/
def closedDatabaseError : PyError :=
  .programmingError "Cannot operate on a closed database"

/-- The state of a `SqliteDriver`: the `daily` table rows
`(id, date, desc, tag)` in id-ascending (= insertion) order, the next
auto-increment id, and whether `self._con` has been closed. -/
structure SqliteState where
  rows : List (Nat × Nat × String × String)
  nextId : Nat
  closed : Bool
deriving DecidableEq

/-- A freshly constructed `SqliteDriver` over an empty database. -/
def sqliteFresh : SqliteState :=
  { rows := [], nextId := 1, closed := false }

/-- `SqliteDriver._convert_date` (lines 118-120):
`int(daily_date.replace("-", ""))` for a well-formed date string. -/
def SqliteDriver.convert_date (daily_date : String) : Nat :=
  (daily_date.data.filter (fun c => c ≠ '-')).foldl
    (fun n c => n * 10 + (c.toNat - '0'.toNat)) 0

/-- `SqliteDriver.has_entry` (lines 122-127): `SELECT COUNT(date) ... > 0`. -/
def SqliteDriver.has_entry (st : SqliteState) (daily_date : String) :
    Except PyError Bool :=
  if st.closed then .error closedDatabaseError
  else
    let converted := SqliteDriver.convert_date daily_date
    .ok ((st.rows.filter (fun r => r.2.1 == converted)).length > 0)

/-- `SqliteDriver.get_entry` (lines 129-137): `SELECT desc ... ORDER BY id ASC`
(rows are kept in id order). -/
def SqliteDriver.get_entry (st : SqliteState) (daily_date : String) :
    Except PyError (List String) :=
  if st.closed then .error closedDatabaseError
  else
    let converted := SqliteDriver.convert_date daily_date
    .ok ((st.rows.filter (fun r => r.2.1 == converted)).map (fun r => r.2.2.1))

/-- `SqliteDriver.add_entry` (lines 139-145): insert one row, commit, and
then `self._con.close()`. -/
def SqliteDriver.add_entry (st : SqliteState) (daily_date : String)
    (content : String) (tag : String := "") : Except PyError SqliteState :=
  if st.closed then .error closedDatabaseError
  else
    let converted := SqliteDriver.convert_date daily_date
    .ok { rows := st.rows ++ [(st.nextId, converted, content, tag)]
          nextId := st.nextId + 1
          closed := true }

/-- `SqliteDriver.nuke_entries` (lines 147-153): delete all rows for the
date, commit, `self._con.close()`, and return the deleted row count. -/
def SqliteDriver.nuke_entries (st : SqliteState) (daily_date : String) :
    Except PyError (Nat × SqliteState) :=
  if st.closed then .error closedDatabaseError
  else
    let converted := SqliteDriver.convert_date daily_date
    .ok ((st.rows.filter (fun r => r.2.1 == converted)).length,
      { rows := st.rows.filter (fun r => !(r.2.1 == converted))
        nextId := st.nextId
        closed := true })

/-! ## The filesystem backend (daily.py lines 176-230) -/

/-- The state of an `FsDriver`: the contents of `<entries_dir>/<date>.txt`,
keyed by the date (the filename map `_get_filename` is injective in it). -/
structure FsState where
  files : String → Option String

/-- An empty entries directory. -/
def fsEmpty : FsState :=
  ⟨fun _ => none⟩

/-- `FsDriver.has_entry` (lines 190-193): the per-date file exists. -/
def FsDriver.has_entry (st : FsState) (daily_date : String) : Bool :=
  (st.files daily_date).isSome

/-- `FsDriver.nuke_entries` (lines 195-200): remove the file if present and
report whether anything was removed. -/
def FsDriver.nuke_entries (st : FsState) (daily_date : String) : Bool × FsState :=
  if FsDriver.has_entry st daily_date then
    (true, ⟨fun d => if d = daily_date then none else st.files d⟩)
  else
    (false, st)

/-- `FsDriver.get_entry` (lines 215-221): `[]` when absent, otherwise
`readlines()` of the file contents. -/
def FsDriver.get_entry (st : FsState) (daily_date : String) : List String :=
  match st.files daily_date with
  | none => []
  | some contents => pyReadlines contents

/-- `FsDriver.add_entry` (lines 223-230): append `content + os.linesep`
(mode `"w"` when the file is absent, `"a"` otherwise). -/
def FsDriver.add_entry (st : FsState) (daily_date : String) (content : String) : FsState :=
  let old := match st.files daily_date with
    | none => ""
    | some c => c
  ⟨fun d => if d = daily_date then some (old ++ content ++ LINESEP) else st.files d⟩

/-! ## CLI layer (daily.py lines 263-299) -/

/-- `confirm_deletion` (lines 263-266) with the console read injected:
the user's reply is affirmative iff it lowercases to `yes` or `y`. -/
def confirm_deletion (user_input : String) : Bool :=
  let choice := pyLower user_input
  choice == "yes" || choice == "y"

/-- The `nuke` branch of `run_subcommands` (lines 292-296) over the file
backend: `daily.get_entry` is called and discarded, `confirm_deletion` is
called and its boolean result is discarded (line 294), and
`daily.nuke_entries` runs unconditionally. -/
def run_nuke (st : FsState) (parsed_date : String) (user_input : String) :
    Bool × FsState :=
  let _result := FsDriver.get_entry st parsed_date
  let _answer := confirm_deletion user_input
  FsDriver.nuke_entries st parsed_date

/-- The `add` branch of `run_subcommands` (lines 286-288) over the SQLite
backend: one `add_entry` per `-m` group, joining each group with spaces. -/
def run_add (st : SqliteState) (parsed_date : String)
    (message : List (List String)) : Except PyError SqliteState :=
  message.foldlM
    (fun st messages => SqliteDriver.add_entry st parsed_date (String.intercalate " " messages))
    st

/-! ## Module import (daily.py lines 13, 28-104)

Python evaluates `def` annotations eagerly while the enclosing class body
runs, which happens at module import.  We model the import of `daily.py` up
to `class Daily` as the evaluation, in source order, of each annotation's
name lookups against the module's global names at that point. -/

/-- Line 13: `from typing import Optional, List`. -/
def typing_import_names : List String :=
  ["Optional", "List"]

/-- The builtin names the module's annotations could draw on. -/
def python_builtins : List String :=
  ["int", "str", "bool", "float", "list", "dict", "set", "tuple", "object"]

/-- Module globals bound before `class Daily`'s body executes: imports
(lines 3-13), module constants (15-21), `IllegalDateException` (24),
`Result` (28), plus builtins. -/
def module_globals : List String :=
  ["argparse", "os", "re", "subprocess", "sys", "sqlite3",
   "dataclass", "field", "date", "timedelta", "Path",
   "DEFAULT_EDITOR", "ENTRIES_DIR", "SQLITE_DB_FILE", "DEFAULT_EXTENSION",
   "DATE_FORMAT", "daily_entry_regex", "IllegalDateException", "Result"] ++
  typing_import_names ++ python_builtins

/-- The names looked up by the eagerly evaluated annotations of `Result`'s
fields (lines 30-32) and of each method of `class Daily` (lines 39-104),
in source order.  The last entry is `get_ids` (line 103):
`(daily_date: str) -> List[Tuple[int, str]]`. -/
def daily_annotation_name_lists : List (List String) :=
  [["list", "str", "field"], ["list", "str", "field"], ["str"],
   ["str"], ["str"], ["str", "str"], ["bool"], ["Optional", "str"],
   ["str", "Optional", "Result"], ["str", "bool"],
   ["str", "int", "str", "int"], ["str", "str"], ["str", "int", "int"],
   ["str", "List", "Tuple", "int", "str"]]

/-- Evaluate one annotation: the first name not bound in the environment
raises `NameError`. -/
def evalAnnotationExpr (env : List String) (names : List String) :
    Except PyError Unit :=
  match names.find? (fun n => !env.contains n) with
  | some n => .error (.nameError n)
  | none => .ok ()

/-- Importing `daily.py`: evaluate every eager annotation in source order
against the module globals, stopping at the first exception. -/
def load_daily_module : Except PyError Unit :=
  daily_annotation_name_lists.foldlM (fun _ names => evalAnnotationExpr module_globals names) ()

/-- Running `python daily.py <argv>`: the module must import before
`main()` can run. -/
def run_program (main_fn : List String → Except PyError Unit) (argv : List String) :
    Except PyError Unit :=
  match load_daily_module with
  | .error e => .error e
  | .ok _ => main_fn argv

/-! ## Calendar validity (spec side, for the C8 refinement check) -/

/-- Modelled from the spec: "always a valid calendar date" (spec section 3,
DateKey invariant) — proleptic Gregorian leap-year rule. -/
def isLeapYear (y : Nat) : Bool :=
  (y % 4 == 0 && y % 100 != 0) || y % 400 == 0

/-- Modelled from the spec: days in a month of the Gregorian calendar. -/
def daysInMonth (y m : Nat) : Nat :=
  if m = 2 then (if isLeapYear y then 29 else 28)
  else if m == 4 || m == 6 || m == 9 || m == 11 then 30
  else 31

/-- Digits of a two- or four-character group as a number. -/
def digitsToNat (l : List Char) : Nat :=
  l.foldl (fun n c => n * 10 + (c.toNat - '0'.toNat)) 0

/-- Modelled from the spec: the string denotes an actually existing
year-month-day combination in `YYYY-MM-DD` form. -/
def isValidCalendarDate (s : String) : Bool :=
  match s.data with
  | [y1, y2, y3, y4, h1, m1, m2, h2, d1, d2] =>
    (y1.isDigit && y2.isDigit && y3.isDigit && y4.isDigit && h1 == '-' &&
      m1.isDigit && m2.isDigit && h2 == '-' && d1.isDigit && d2.isDigit) &&
    (let y := digitsToNat [y1, y2, y3, y4]
     let m := digitsToNat [m1, m2]
     let d := digitsToNat [d1, d2]
     1 ≤ m && m ≤ 12 && 1 ≤ d && d ≤ daysInMonth y m)
  | _ => false

/-! ## Concrete collaborator instances used by witnesses -/

/-- A host clock on which "today" is 2030-01-01 and two days earlier is
2029-12-30. -/
def clockW : Clock :=
  ⟨fun off => if off = 0 then "2030-01-01" else if off = -2 then "2029-12-30" else "2029-12-31"⟩

/-- A driver view with a single entry on 2029-12-30. -/
def driverW : Driver :=
  ⟨fun d => d == "2029-12-30", fun d => if d == "2029-12-30" then ["fixed the build"] else []⟩

/-- A driver view with no entries at all. -/
def driverNone : Driver :=
  ⟨fun _ => false, fun _ => []⟩

/-- A file store holding one entry file for 2024-03-05. -/
def fsOne : FsState :=
  ⟨fun d => if d = "2024-03-05" then some "did X\n" else none⟩

/-- A file store holding one entry file for 2024-01-02 containing `a\n`. -/
def fsA : FsState :=
  ⟨fun d => if d = "2024-01-02" then some "a\n" else none⟩

/-- A SQLite store holding one row for 2024-03-05, connection open. -/
def sqliteOne : SqliteState :=
  { rows := [(1, 20240305, "did X", "")], nextId := 2, closed := false }

/-! ## Theorems -/

/-- C1: the claim says the backend delete runs only after an affirmative
confirmation.  The code violates it: `run_subcommands` (line 294) discards
`confirm_deletion`'s return value, so with one stored entry for 2024-03-05
and the negative reply `n`, the entries are deleted anyway. -/
theorem nuke_deletes_despite_negative_confirmation :
    confirm_deletion "n" = false ∧
    (run_nuke fsOne "2024-03-05" "n").1 = true ∧
    FsDriver.has_entry (run_nuke fsOne "2024-03-05" "n").2 "2024-03-05" = false :=
  ⟨by decide, by decide, by decide⟩

/-- C5: the claim says every `-m` message of an `add` run is stored.  The
code violates it for two or more messages: `SqliteDriver.add_entry`
(line 145) closes the connection after the first insert, so the second
insert raises `ProgrammingError`; a single-message run does store its row. -/
theorem add_second_message_raises :
    run_add sqliteFresh "2024-03-05" [["did", "X"]] =
      .ok { rows := [(1, 20240305, "did X", "")], nextId := 2, closed := true } ∧
    run_add sqliteFresh "2024-03-05" [["a"], ["b"]] = .error closedDatabaseError :=
  ⟨rfl, rfl⟩

/-- C6: the claim says `nukeEntries` on an empty date is a no-op returning
false/zero, and on a populated date returns true/positive with a subsequent
`hasEntry` returning false.  The file backend satisfies this, but the SQLite
backend closes its connection inside `nuke_entries` (line 152), so the
subsequent `has_entry` raises `ProgrammingError` instead of returning
false. -/
theorem nuke_then_has_entry_eval :
    FsDriver.nuke_entries fsEmpty "2024-03-05" = (false, fsEmpty) ∧
    (FsDriver.nuke_entries fsOne "2024-03-05").1 = true ∧
    FsDriver.has_entry (FsDriver.nuke_entries fsOne "2024-03-05").2 "2024-03-05" = false ∧
    SqliteDriver.nuke_entries sqliteOne "2024-03-05" =
      .ok (1, { rows := [], nextId := 2, closed := true }) ∧
    SqliteDriver.has_entry { rows := [], nextId := 2, closed := true } "2024-03-05" =
      .error closedDatabaseError :=
  ⟨rfl, by decide, by decide, rfl, rfl⟩

/-- C9: the return annotations of `Daily.get_ids` (line 103) and
`SqliteDriver.get_ids` (line 169) reference `Tuple`, a name the module
never imports from `typing`; evaluating the annotation while the class body runs
raises `NameError`, so importing the module fails before `main` can run,
whatever the command line. -/
theorem load_fails_with_tuple_name_error :
    "Tuple" ∉ typing_import_names ∧
    load_daily_module = .error (.nameError "Tuple") ∧
    ∀ (main_fn : List String → Except PyError Unit) (argv : List String),
      run_program main_fn argv = .error (.nameError "Tuple") :=
  ⟨by decide, rfl, fun _ _ => rfl⟩

/-! ### `str.strip` is idempotent -/

/-- `dropWhile` is idempotent. -/
theorem dropWhile_dropWhile {α : Type} (p : α → Bool) (l : List α) :
    (l.dropWhile p).dropWhile p = l.dropWhile p := by
  induction l with
  | nil => rfl
  | cons a l ih =>
    by_cases h : p a
    · simp [List.dropWhile_cons, h, ih]
    · simp [List.dropWhile_cons, h]

/-- A prefix of a list that is unchanged by `dropWhile` is itself unchanged
by `dropWhile`. -/
theorem dropWhile_eq_self_of_prefix {α : Type} (p : α → Bool) {A B T : List α}
    (hA : A.dropWhile p = A) (hAB : A = B ++ T) : B.dropWhile p = B := by
  cases B with
  | nil => rfl
  | cons b bs =>
    have hpb : p b = false := by
      by_contra hpb
      rw [Bool.not_eq_false] at hpb
      rw [hAB, List.cons_append, List.dropWhile_cons, if_pos hpb] at hA
      have hle := (List.dropWhile_sublist (p := p) (l := bs ++ T)).length_le
      have hlen := congrArg List.length hA
      rw [List.length_cons] at hlen
      omega
    rw [List.dropWhile_cons, if_neg (by simp [hpb])]

/-- `pyStripL` is idempotent. -/
theorem pyStripL_idem (l : List Char) : pyStripL (pyStripL l) = pyStripL l := by
  have hsplit : l.dropWhile pyIsSpace =
      pyStripL l ++ ((l.dropWhile pyIsSpace).reverse.takeWhile pyIsSpace).reverse := by
    conv_lhs => rw [← List.reverse_reverse (l.dropWhile pyIsSpace),
      ← List.takeWhile_append_dropWhile (p := pyIsSpace)
        (l := (l.dropWhile pyIsSpace).reverse)]
    rw [List.reverse_append]
    rfl
  have h1 : (pyStripL l).dropWhile pyIsSpace = pyStripL l :=
    dropWhile_eq_self_of_prefix pyIsSpace (dropWhile_dropWhile pyIsSpace l) hsplit
  show (((pyStripL l).dropWhile pyIsSpace).reverse.dropWhile pyIsSpace).reverse = pyStripL l
  rw [h1]
  conv_lhs => rw [show (pyStripL l).reverse =
    (l.dropWhile pyIsSpace).reverse.dropWhile pyIsSpace from
      List.reverse_reverse ((l.dropWhile pyIsSpace).reverse.dropWhile pyIsSpace)]
  rw [dropWhile_dropWhile]
  rfl

/-- `pyStrip` is idempotent, so the second `strip()` inside
`Daily._validate_date` is a no-op on the already stripped token. -/
theorem pyStrip_idem (s : String) : pyStrip (pyStrip s) = pyStrip s :=
  congrArg String.mk (pyStripL_idem s.data)

/-! ### The lookback loop -/

/-- The lookback loop yields `some d` iff `d` is the date at the first
offset `i + k` (with `k` below the remaining fuel) whose date has an
entry. -/
theorem get_latest_entry_from_eq_some (clock : Clock) (driver : Driver) :
    ∀ (fuel i : Nat) (d : String),
      Daily.get_latest_entry_from clock driver fuel i = some d ↔
        ∃ k, k < fuel ∧ d = Daily.compute_date clock (-((i + k : Nat) : Int)) ∧
          driver.has_entry (Daily.compute_date clock (-((i + k : Nat) : Int))) = true ∧
          ∀ j, j < k →
            driver.has_entry (Daily.compute_date clock (-((i + j : Nat) : Int))) = false := by
  intro fuel
  induction fuel with
  | zero =>
    intro i d
    simp [Daily.get_latest_entry_from]
  | succ fuel ih =>
    intro i d
    rw [Daily.get_latest_entry_from]
    by_cases hc : driver.has_entry (Daily.compute_date clock (-(i : Int))) = true
    · simp only [hc, if_true]
      constructor
      · intro h
        injection h with h
        refine ⟨0, Nat.succ_pos fuel, ?_, ?_, fun j hj => absurd hj (Nat.not_lt_zero j)⟩
        · rw [Nat.add_zero]; exact h.symm
        · rw [Nat.add_zero]; exact hc
      · rintro ⟨k, _, hd, _, hmin⟩
        cases k with
        | zero => rw [hd, Nat.add_zero]
        | succ k =>
          have h0 := hmin 0 (Nat.succ_pos k)
          rw [Nat.add_zero] at h0
          rw [hc] at h0
          exact absurd h0 (by simp)
    · rw [Bool.not_eq_true] at hc
      rw [if_neg (by simp [hc])]
      rw [ih (i + 1) d]
      constructor
      · rintro ⟨k, hk, hd, hhas, hmin⟩
        refine ⟨k + 1, Nat.succ_lt_succ hk, ?_, ?_, ?_⟩
        · rw [show i + (k + 1) = i + 1 + k by omega]; exact hd
        · rw [show i + (k + 1) = i + 1 + k by omega]; exact hhas
        · intro j hj
          cases j with
          | zero => rw [Nat.add_zero]; exact hc
          | succ j =>
            rw [show i + (j + 1) = i + 1 + j by omega]
            exact hmin j (Nat.lt_of_succ_lt_succ hj)
      · rintro ⟨k, hk, hd, hhas, hmin⟩
        cases k with
        | zero =>
          rw [Nat.add_zero] at hhas
          rw [hc] at hhas
          exact absurd hhas (by simp)
        | succ k =>
          refine ⟨k, Nat.lt_of_succ_lt_succ hk, ?_, ?_, ?_⟩
          · rw [show i + 1 + k = i + (k + 1) by omega]; exact hd
          · rw [show i + 1 + k = i + (k + 1) by omega]; exact hhas
          · intro j hj
            rw [show i + 1 + j = i + (j + 1) by omega]
            exact hmin (j + 1) (Nat.succ_lt_succ hj)

/-- The lookback loop yields `none` iff no offset below the remaining fuel
has an entry. -/
theorem get_latest_entry_from_eq_none (clock : Clock) (driver : Driver) :
    ∀ (fuel i : Nat),
      Daily.get_latest_entry_from clock driver fuel i = none ↔
        ∀ k, k < fuel →
          driver.has_entry (Daily.compute_date clock (-((i + k : Nat) : Int))) = false := by
  intro fuel
  induction fuel with
  | zero =>
    intro i
    simp [Daily.get_latest_entry_from]
  | succ fuel ih =>
    intro i
    rw [Daily.get_latest_entry_from]
    by_cases hc : driver.has_entry (Daily.compute_date clock (-(i : Int))) = true
    · simp only [hc, if_true]
      constructor
      · intro h; exact absurd h (by simp)
      · intro h
        have h0 := h 0 (Nat.succ_pos fuel)
        rw [Nat.add_zero, hc] at h0
        exact absurd h0 (by simp)
    · rw [Bool.not_eq_true] at hc
      rw [if_neg (by simp [hc])]
      rw [ih (i + 1)]
      constructor
      · intro h k hk
        cases k with
        | zero => rw [Nat.add_zero]; exact hc
        | succ k =>
          rw [show i + (k + 1) = i + 1 + k by omega]
          exact h k (Nat.lt_of_succ_lt_succ hk)
      · intro h k hk
        rw [show i + 1 + k = i + (k + 1) by omega]
        exact h (k + 1) (Nat.succ_lt_succ hk)

/-- C2: when the backend has an entry for `d`, `get_entry` returns the
items for exactly `d` with no warning; when it does not but the lookback
yields `d2`, `get_entry` returns the items of `d2`, resolved date `d2`, and
exactly one warning naming both `d` and `d2`. -/
theorem get_entry_exact_and_fallback (clock : Clock) (driver : Driver) (d : String) :
    (driver.has_entry d = true →
      Daily.get_entry clock driver d = ⟨driver.get_entry d, [], d⟩) ∧
    (driver.has_entry d = false →
      ∀ d2, Daily.get_latest_entry clock driver = some d2 →
        Daily.get_entry clock driver d =
          ⟨driver.get_entry d2,
           ["Nothing found for " ++ d ++ ", showing results for " ++ d2], d2⟩) := by
  constructor
  · intro h
    simp [Daily.get_entry, h]
  · intro h d2 hlast
    simp [Daily.get_entry, h, hlast]

/-- C2 witness: on a concrete store holding only 2029-12-30, looking up the
absent 2030-01-01 falls back with the one substitution warning, and looking
up 2029-12-30 itself returns its items with no warning. -/
theorem get_entry_exact_and_fallback_witness :
    Daily.get_entry clockW driverW "2030-01-01" =
      ⟨["fixed the build"],
       ["Nothing found for 2030-01-01, showing results for 2029-12-30"], "2029-12-30"⟩ ∧
    Daily.get_entry clockW driverW "2029-12-30" =
      ⟨["fixed the build"], [], "2029-12-30"⟩ := by
  constructor
  · have h := (get_entry_exact_and_fallback clockW driverW "2030-01-01").2
      (by decide) "2029-12-30" (by decide)
    exact h.trans (by decide)
  · have h := (get_entry_exact_and_fallback clockW driverW "2029-12-30").1 (by decide)
    exact h.trans (by decide)

/-- C4: `get_latest_entry` yields exactly the first of the 30 dates
`compute_date 0, -1, ..., -29` that has an entry; when none of the 30 has
one it yields `none`, and `get_entry` of today then returns an empty item
list with the single no-entries warning. -/
theorem lookback_thirty_days_spec (clock : Clock) (driver : Driver) :
    (∀ d, Daily.get_latest_entry clock driver = some d ↔
      ∃ k : Nat, k < 30 ∧ d = Daily.compute_date clock (-(k : Int)) ∧
        driver.has_entry d = true ∧
        ∀ j : Nat, j < k → driver.has_entry (Daily.compute_date clock (-(j : Int))) = false) ∧
    ((∀ k : Nat, k < 30 → driver.has_entry (Daily.compute_date clock (-(k : Int))) = false) →
      Daily.get_latest_entry clock driver = none ∧
      Daily.get_entry clock driver (Daily.compute_date clock 0) =
        ⟨[], ["No entries found for the last 30 days"], ""⟩) := by
  constructor
  · intro d
    rw [Daily.get_latest_entry, get_latest_entry_from_eq_some]
    constructor
    · rintro ⟨k, hk, hd, hhas, hmin⟩
      rw [Nat.zero_add] at hd hhas
      refine ⟨k, hk, hd, by rw [hd]; exact hhas, ?_⟩
      intro j hj
      have hj' := hmin j hj
      rw [Nat.zero_add] at hj'
      exact hj'
    · rintro ⟨k, hk, hd, hhas, hmin⟩
      refine ⟨k, hk, by rw [Nat.zero_add]; exact hd, ?_, ?_⟩
      · rw [Nat.zero_add, ← hd]; exact hhas
      · intro j hj
        rw [Nat.zero_add]
        exact hmin j hj
  · intro h
    have hnone : Daily.get_latest_entry clock driver = none := by
      rw [Daily.get_latest_entry, get_latest_entry_from_eq_none]
      intro k hk
      rw [Nat.zero_add]
      exact h k hk
    have h0 : driver.has_entry (Daily.compute_date clock 0) = false := by
      have h0' := h 0 (by omega)
      simpa using h0'
    exact ⟨hnone, by simp [Daily.get_entry, h0, hnone]⟩

/-- C4 witness: a driver with no entries at all makes the lookback yield
`none` and `get_entry` of today report the no-entries warning. -/
theorem lookback_thirty_days_spec_witness :
    Daily.get_latest_entry clockW driverNone = none ∧
    Daily.get_entry clockW driverNone (Daily.compute_date clockW 0) =
      ⟨[], ["No entries found for the last 30 days"], ""⟩ :=
  (lookback_thirty_days_spec clockW driverNone).2 (fun _ _ => rfl)

/-- C10: with no entry in the 30-day window, `translate_date` on `last` or
`l` returns `ok none` — the `None` from `get_latest_entry` is handed back
as the resolved date, and no `IllegalDateException` is raised. -/
theorem translate_last_returns_none (clock : Clock) (driver : Driver)
    (h : ∀ k : Nat, k < 30 → driver.has_entry (Daily.compute_date clock (-(k : Int))) = false) :
    Daily.translate_date clock driver "last" = .ok none ∧
    Daily.translate_date clock driver "l" = .ok none := by
  have hnone : Daily.get_latest_entry clock driver = none := by
    rw [Daily.get_latest_entry, get_latest_entry_from_eq_none]
    intro k hk
    rw [Nat.zero_add]
    exact h k hk
  have e1 : Daily.translate_date clock driver "last" =
      .ok (Daily.get_latest_entry clock driver) := rfl
  have e2 : Daily.translate_date clock driver "l" =
      .ok (Daily.get_latest_entry clock driver) := rfl
  refine ⟨?_, ?_⟩
  · rw [e1, hnone]
  · rw [e2, hnone]

/-- C10 witness: the empty driver has no entry anywhere, so `last` and `l`
resolve to `ok none`. -/
theorem translate_last_returns_none_witness :
    Daily.translate_date clockW driverNone "last" = .ok none ∧
    Daily.translate_date clockW driverNone "l" = .ok none :=
  translate_last_returns_none clockW driverNone (fun _ _ => rfl)

/-! ### Shared lemmas about `translate_date` on the validation path -/

/-- On a non-keyword token, `translate_date` reduces to the validation
branch. -/
theorem translate_date_non_keyword (clock : Clock) (driver : Driver) (s : String)
    (hkw : pyStrip (pyLower s) ∉ ["today", "t", "yesterday", "y", "last", "l"]) :
    Daily.translate_date clock driver s =
      match Daily.validate_date (pyStrip (pyLower s)) with
      | .error e => .error e
      | .ok _ => .ok (some (pyStrip (pyLower s))) := by
  simp only [List.mem_cons, List.not_mem_nil, or_false, not_or] at hkw
  obtain ⟨h1, h2, h3, h4, h5, h6⟩ := hkw
  have hb : ∀ r : String, pyStrip (pyLower s) ≠ r → (pyStrip (pyLower s) == r) = false :=
    fun r hr => beq_eq_false_iff_ne.mpr hr
  simp only [Daily.translate_date]
  rw [hb _ h1, hb _ h2, hb _ h3, hb _ h4, hb _ h5, hb _ h6]
  rfl

/-- An already stripped token matching the regex passes validation. -/
theorem validate_date_stripped_true {x : String}
    (hreg : daily_entry_regex_match (pyStrip x) = true) :
    Daily.validate_date (pyStrip x) = .ok () := by
  have hne : pyStrip x ≠ "" := by
    intro he
    rw [he] at hreg
    exact absurd hreg (by decide)
  rw [Daily.validate_date, pyStrip_idem x, hreg]
  simp [hne]

/-- An already stripped token not matching the regex fails validation. -/
theorem validate_date_stripped_false {x : String}
    (hreg : daily_entry_regex_match (pyStrip x) = false) :
    ∃ e, Daily.validate_date (pyStrip x) = .error e := by
  by_cases he : pyStrip x = ""
  · refine ⟨⟨"empty date given"⟩, ?_⟩
    rw [he]
    rfl
  · refine ⟨⟨"Invalid date " ++ pyStrip x ++ ", date must be in format " ++ DATE_FORMAT⟩, ?_⟩
    rw [Daily.validate_date, pyStrip_idem x, hreg]
    simp [he]

/-- Validation succeeds only on regex-matching tokens. -/
theorem regex_true_of_validate_ok {x : String}
    (h : Daily.validate_date (pyStrip x) = .ok ()) :
    daily_entry_regex_match (pyStrip x) = true := by
  rw [Daily.validate_date, pyStrip_idem x] at h
  by_cases he : (pyStrip x == "") = true
  · rw [if_pos he] at h
    exact absurd h (by simp)
  · rw [if_neg he] at h
    by_cases hr : daily_entry_regex_match (pyStrip x) = true
    · exact hr
    · rw [Bool.not_eq_true] at hr
      rw [hr] at h
      simp at h

/-- C3: for any input whose trimmed, lowercased form is not a recognized
keyword, `translate_date` returns that form unchanged when it matches
`^\d{4}-\d{2}-\d{2}$` and raises `IllegalDateException` otherwise
(including on the empty string). -/
theorem translate_explicit_date_spec (clock : Clock) (driver : Driver) (s : String)
    (hkw : pyStrip (pyLower s) ∉ ["today", "t", "yesterday", "y", "last", "l"]) :
    (daily_entry_regex_match (pyStrip (pyLower s)) = true →
      Daily.translate_date clock driver s = .ok (some (pyStrip (pyLower s)))) ∧
    (daily_entry_regex_match (pyStrip (pyLower s)) = false →
      ∃ e, Daily.translate_date clock driver s = .error e) := by
  constructor
  · intro hreg
    rw [translate_date_non_keyword clock driver s hkw,
      validate_date_stripped_true (x := pyLower s) hreg]
  · intro hreg
    obtain ⟨e, he⟩ := validate_date_stripped_false (x := pyLower s) hreg
    exact ⟨e, by rw [translate_date_non_keyword clock driver s hkw, he]⟩

/-- C3 witness: the explicit date `2024-01-02` resolves to itself, and the
non-matching token `not-a-date` raises. -/
theorem translate_explicit_date_spec_witness :
    Daily.translate_date clockW driverW "2024-01-02" = .ok (some "2024-01-02") ∧
    (∃ e, Daily.translate_date clockW driverW "not-a-date" = .error e) := by
  constructor
  · have h := (translate_explicit_date_spec clockW driverW "2024-01-02" (by decide)).1
      (by decide)
    exact h
  · exact (translate_explicit_date_spec clockW driverW "not-a-date" (by decide)).2 (by decide)

/-- C8 counterexample: the resolver accepts `2024-13-45` unchanged, yet
month 13 / day 45 is not an existing calendar date, so "every DateKey the
resolver accepts is a valid calendar date" is false. -/
theorem resolver_accepts_noncalendar_date :
    Daily.translate_date clockW driverW "2024-13-45" = .ok (some "2024-13-45") ∧
    isValidCalendarDate "2024-13-45" = false :=
  ⟨rfl, by decide⟩

/-- C8 amended: every non-keyword token the resolver accepts matches the
shape regex `^\d{4}-\d{2}-\d{2}$` — shape is all the validation
guarantees, not calendar existence. -/
theorem resolver_guarantees_regex_shape_only (clock : Clock) (driver : Driver)
    (s d : String)
    (hkw : pyStrip (pyLower s) ∉ ["today", "t", "yesterday", "y", "last", "l"])
    (hacc : Daily.translate_date clock driver s = .ok (some d)) :
    d = pyStrip (pyLower s) ∧ daily_entry_regex_match d = true := by
  rw [translate_date_non_keyword clock driver s hkw] at hacc
  cases hv : Daily.validate_date (pyStrip (pyLower s)) with
  | error e =>
    rw [hv] at hacc
    simp at hacc
  | ok u =>
    rw [hv] at hacc
    simp only [] at hacc
    have hd : d = pyStrip (pyLower s) := by
      injection hacc with hacc
      injection hacc with hacc
      exact hacc.symm
    have hreg := regex_true_of_validate_ok (x := pyLower s) (by rw [hv])
    exact ⟨hd, by rw [hd]; exact hreg⟩

/-- C8 amended witness: `2024-13-45` is accepted and indeed matches the
shape regex. -/
theorem resolver_guarantees_regex_shape_only_witness :
    daily_entry_regex_match "2024-13-45" = true := by
  have h := resolver_guarantees_regex_shape_only clockW driverW "2024-13-45" "2024-13-45"
    (by decide) rfl
  exact h.2

/-! ### `readlines` lemmas for the file backend round trip -/

/-- `readlinesL` of a nonempty list is nonempty. -/
theorem readlinesL_ne_nil (c : Char) (rest : List Char) :
    readlinesL (c :: rest) ≠ [] := by
  rw [readlinesL]
  by_cases h : c = '\n'
  · simp [h]
  · rw [if_neg h]
    cases hr : readlinesL rest with
    | nil => simp
    | cons l ls => simp

/-- Unfolding equation: a newline starts its own line. -/
theorem readlinesL_cons_newline (rest : List Char) :
    readlinesL ('\n' :: rest) = ['\n'] :: readlinesL rest := by
  rw [readlinesL, if_pos rfl]

/-- Unfolding equation: a non-newline character joins the first line. -/
theorem readlinesL_cons_other {c : Char} (hc : c ≠ '\n') (rest : List Char) :
    readlinesL (c :: rest) =
      match readlinesL rest with
      | [] => [[c]]
      | l :: ls => (c :: l) :: ls := by
  rw [readlinesL, if_neg hc]

/-- `readlines` distributes over append when the first part is empty or
newline-terminated. -/
theorem readlinesL_append (a b : List Char)
    (h : a = [] ∨ a.getLast? = some '\n') :
    readlinesL (a ++ b) = readlinesL a ++ readlinesL b := by
  induction a with
  | nil => rfl
  | cons c rest ih =>
    rcases h with h | h
    · exact absurd h (List.cons_ne_nil c rest)
    · have hrest : rest = [] ∨ rest.getLast? = some '\n' := by
        cases rest with
        | nil => exact Or.inl rfl
        | cons r rs =>
          rw [List.getLast?_cons_cons] at h
          exact Or.inr h
      by_cases hc : c = '\n'
      · subst hc
        rw [List.cons_append, readlinesL_cons_newline, readlinesL_cons_newline, ih hrest]
        rfl
      · cases rest with
        | nil =>
          simp at h
          exact absurd h hc
        | cons r rs =>
          rw [List.cons_append, readlinesL_cons_other hc, readlinesL_cons_other hc,
            ih hrest]
          cases hr : readlinesL (r :: rs) with
          | nil => exact absurd hr (readlinesL_ne_nil r rs)
          | cons l ls => rfl

/-- A newline-free chunk plus its terminator reads back as one line. -/
theorem readlinesL_line {x : List Char} (hx : '\n' ∉ x) :
    readlinesL (x ++ ['\n']) = [x ++ ['\n']] := by
  induction x with
  | nil => rfl
  | cons c rest ih =>
    have hc : c ≠ '\n' := by
      intro hceq
      exact hx (by rw [hceq]; exact List.mem_cons_self _ _)
    have hrest : '\n' ∉ rest := fun hm => hx (List.mem_cons_of_mem c hm)
    rw [List.cons_append, readlinesL_cons_other hc, ih hrest]

/-- Appending one line (newline-free text plus separator) to empty or
newline-terminated contents appends exactly one element in `readlines`. -/
theorem pyReadlines_append_line (cont x : String)
    (hx : '\n' ∉ x.data) (hcont : cont.data = [] ∨ cont.data.getLast? = some '\n') :
    pyReadlines (cont ++ x ++ LINESEP) = pyReadlines cont ++ [x ++ "\n"] := by
  have h1 : (cont ++ x ++ LINESEP).data = cont.data ++ (x.data ++ ['\n']) := by
    show (cont.data ++ x.data) ++ ['\n'] = cont.data ++ (x.data ++ ['\n'])
    rw [List.append_assoc]
  rw [pyReadlines, h1, readlinesL_append cont.data (x.data ++ ['\n']) hcont,
    readlinesL_line hx, List.map_append]
  rfl

/-- C7 counterexample: after `write("2024-01-02", "x")` on an empty store,
`read` yields `["x\n"]` — the last element is `"x\n"` (the text plus the
line separator kept by `readlines`), not the bare `"x"` the claim states. -/
theorem fs_roundtrip_last_element_counterexample :
    (FsDriver.get_entry (FsDriver.add_entry fsEmpty "2024-01-02" "x") "2024-01-02").getLast? =
      some "x\n" ∧ ("x\n" : String) ≠ "x" :=
  ⟨by decide, by decide⟩

/-- C7 amended: for newline-free text `x` and a per-date file that is
absent or newline-terminated (as every file produced by `add_entry` is),
`read` after `write(d, x)` yields the previously stored lines in their
original order followed by `x ++ "\n"` as the last element. -/
theorem fs_roundtrip_append_line (st : FsState) (d x : String)
    (hx : '\n' ∉ x.data)
    (hst : st.files d = none ∨ ∃ c, st.files d = some c ∧ c.data.getLast? = some '\n') :
    FsDriver.get_entry (FsDriver.add_entry st d x) d =
      FsDriver.get_entry st d ++ [x ++ "\n"] := by
  have hfile : (FsDriver.add_entry st d x).files d =
      some ((match st.files d with | none => "" | some c => c) ++ x ++ LINESEP) := by
    simp [FsDriver.add_entry]
  rcases hst with hnone | ⟨c, hc, hlast⟩
  · rw [FsDriver.get_entry, hfile, hnone]
    rw [FsDriver.get_entry, hnone]
    show pyReadlines ("" ++ x ++ LINESEP) = [] ++ [x ++ "\n"]
    rw [pyReadlines_append_line "" x hx (Or.inl rfl)]
    rfl
  · rw [FsDriver.get_entry, hfile, hc]
    rw [FsDriver.get_entry, hc]
    show pyReadlines (c ++ x ++ LINESEP) = pyReadlines c ++ [x ++ "\n"]
    exact pyReadlines_append_line c x hx (Or.inr hlast)

/-- C7 amended witness: writing `x` after an existing line `a` yields
`["a\n", "x\n"]`. -/
theorem fs_roundtrip_append_line_witness :
    FsDriver.get_entry (FsDriver.add_entry fsA "2024-01-02" "x") "2024-01-02" =
      ["a\n", "x\n"] := by
  have h := fs_roundtrip_append_line fsA "2024-01-02" "x" (by decide)
    (Or.inr ⟨"a\n", by decide, by decide⟩)
  rw [h]
  decide
